import Mathlib

/-!
Verification of the vertex core of h3-go (src/v3/h3_vertex.c) against its
natural-language specification.

The file shallowly embeds the two functions `vertexRotations` and
`vertexNumForDirection` and the three static tables of h3_vertex.c.  The
external collaborators (base-cell metadata, face projection, leading digit)
are not part of the source file: their per-cell outputs are modelled as the
fields of a `CellEnv` record, and the few global facts about them that the
spec states (pentagon base-cell ids, rotation range) are modelled from the
spec as explicitly marked definitions and hypotheses.
-/

namespace H3Vertex

/-- Direction digit Center (CENTER_DIGIT = 0 in the C enum Direction). -/
def CENTER_DIGIT : Nat := 0

/-- Direction digit K (K_AXES_DIGIT = 1). -/
def K_AXES_DIGIT : Nat := 1

/-- Direction digit J (J_AXES_DIGIT = 2). -/
def J_AXES_DIGIT : Nat := 2

/-- Direction digit JK (JK_AXES_DIGIT = 3). -/
def JK_AXES_DIGIT : Nat := 3

/-- Direction digit I (I_AXES_DIGIT = 4). -/
def I_AXES_DIGIT : Nat := 4

/-- Direction digit IK (IK_AXES_DIGIT = 5). -/
def IK_AXES_DIGIT : Nat := 5

/-- Direction digit IJ (IJ_AXES_DIGIT = 6). -/
def IJ_AXES_DIGIT : Nat := 6

/-- Sentinel direction value (INVALID_DIGIT = 7). -/
def INVALID_DIGIT : Nat := 7

/-- Number of direction digits (NUM_DIGITS = 7). -/
def NUM_DIGITS : Nat := 7

/-- Number of pentagon base cells (NUM_PENTAGONS = 12; spec: exactly 12 of
the 122 base cells are pentagons). -/
def NUM_PENTAGONS : Nat := 12

/-- Number of vertices of a hexagonal cell (NUM_HEX_VERTS = 6). -/
def NUM_HEX_VERTS : Nat := 6

/-- Number of vertices of a pentagonal cell (NUM_PENT_VERTS = 5). -/
def NUM_PENT_VERTS : Nat := 5

/-- Modelled from the spec: the distinguished invalid-vertex sentinel
(INVALID_VERTEX_NUM, declared in h3_vertex.h which is not under src/); the
spec only requires a value distinct from every valid vertex number 0..5, and
the upstream header uses -1. -/
def INVALID_VERTEX_NUM : Int := -1

/-- Index offset between a direction digit and its slot in a pentagon
direction-face list (DIRECTION_INDEX_OFFSET = 2). -/
def DIRECTION_INDEX_OFFSET : Nat := 2

/-- One entry of the pentagonDirectionFaces table: a pentagon base cell id
together with the five icosahedron faces it touches, listed in directional
order starting at J_AXES_DIGIT (PentagonDirectionFaces in the C source). -/
structure PentagonDirectionFaces where
  baseCell : Nat
  faces : List Nat
  deriving DecidableEq, Repr

/-- Table of direction-to-face mapping for each pentagon, transcribed from
pentagonDirectionFaces in src/v3/h3_vertex.c. -/
def pentagonDirectionFaces : List PentagonDirectionFaces :=
  [⟨4, [4, 0, 2, 1, 3]⟩, ⟨14, [6, 11, 2, 7, 1]⟩,
   ⟨24, [5, 10, 1, 6, 0]⟩, ⟨38, [7, 12, 3, 8, 2]⟩,
   ⟨49, [9, 14, 0, 5, 4]⟩, ⟨58, [8, 13, 4, 9, 3]⟩,
   ⟨63, [11, 6, 15, 10, 16]⟩, ⟨72, [12, 7, 16, 11, 17]⟩,
   ⟨83, [10, 5, 19, 14, 15]⟩, ⟨97, [13, 8, 17, 12, 18]⟩,
   ⟨107, [14, 9, 18, 13, 19]⟩, ⟨117, [15, 19, 17, 18, 16]⟩]

/-- Modelled from the spec: the ids of the twelve pentagon base cells.  The
classifier _isBaseCellPentagon lives in h3_baseCells.c, which is not under
src/; the spec states that exactly 12 of the 122 base cells are pentagons and
that the pentagonDirectionFaces table has one entry per pentagon base cell. -/
def pentagonBaseCellIds : List Nat :=
  [4, 14, 24, 38, 49, 58, 63, 72, 83, 97, 107, 117]

/-- Collaborator outputs for one cell: everything vertexRotations and
vertexNumForDirection obtain from the external collaborators about the
queried cell (face projection, base cell, leading digit, shape
classification, face-to-face rotation). -/
structure CellEnv where
  /-- Face of the cell from _h3ToFaceIjk (fijk.face). -/
  face : Nat
  /-- Base cell id from h3GetBaseCell. -/
  baseCell : Nat
  /-- Leading non-zero digit from _h3LeadingNonZeroDigit. -/
  leadingDigit : Nat
  /-- Home face of the base cell from _baseCellToFaceIjk (baseFijk.face). -/
  baseFace : Nat
  /-- Rotation from _baseCellToCCWrot60 (baseCell, face). -/
  ccwRot60 : Nat
  /-- Classification from _isBaseCellPentagon (baseCell). -/
  isBaseCellPentagon : Bool
  /-- Classification from _isBaseCellPolarPentagon (baseCell). -/
  isBaseCellPolarPentagon : Bool
  /-- Classification of the cell itself from h3IsPentagon. -/
  isPentagon : Bool
  deriving DecidableEq, Repr

/-- Validity of the collaborator outputs for a cell, as the spec describes
them for well-formed cell identifiers: the face-to-face rotation is a
rotation count in 0..5, the leading digit is one of the seven direction
values, a pentagon base cell id is one of the twelve pentagon ids, and a
pentagon cell descends from a pentagon base cell. -/
def CellEnv.Valid (env : CellEnv) : Prop :=
  env.ccwRot60 ≤ 5 ∧ env.leadingDigit < NUM_DIGITS ∧
    (env.isBaseCellPentagon = true → env.baseCell ∈ pentagonBaseCellIds) ∧
    (env.isPentagon = true → env.isBaseCellPentagon = true)

instance (env : CellEnv) : Decidable env.Valid := by
  unfold CellEnv.Valid; infer_instance

/-- Linear scan of the pentagonDirectionFaces table keyed by base cell id,
as the for loop in vertexRotations does; `none` models reaching the end of
the loop with dirFaces never assigned. -/
def findPentDirFaces (baseCell : Nat) : Option PentagonDirectionFaces :=
  pentagonDirectionFaces.find? (fun e => e.baseCell == baseCell)

/-- Stand-in for the indeterminate value of the C local dirFaces when the
scan finds no entry (the variable is declared uninitialized). -/
def uninitDirFaces : PentagonDirectionFaces := ⟨0, [0, 0, 0, 0, 0]⟩

/-- Face read as dirFaces.faces[IK_AXES_DIGIT - DIRECTION_INDEX_OFFSET]. -/
def ikFaceOf (df : PentagonDirectionFaces) : Nat :=
  df.faces.getD (IK_AXES_DIGIT - DIRECTION_INDEX_OFFSET) 0

/-- Face read as dirFaces.faces[JK_AXES_DIGIT - DIRECTION_INDEX_OFFSET]. -/
def jkFaceOf (df : PentagonDirectionFaces) : Nat :=
  df.faces.getD (JK_AXES_DIGIT - DIRECTION_INDEX_OFFSET) 0

/-- Additional CCW rotation for polar neighbors or IK neighbors: the first
pentagon correction of vertexRotations (lines 71-77 of h3_vertex.c). -/
def polarIKCorrection (env : CellEnv) (df : PentagonDirectionFaces)
    (r : Nat) : Nat :=
  if env.face ≠ env.baseFace ∧
      (env.isBaseCellPolarPentagon = true ∨ env.face = ikFaceOf df) then
    (r + 1) % 6
  else r

/-- Deleted pentagon subsequence crossing correction: the second pentagon
correction of vertexRotations (lines 79-90 of h3_vertex.c). -/
def subseqCorrection (env : CellEnv) (df : PentagonDirectionFaces)
    (r : Nat) : Nat :=
  if env.leadingDigit = JK_AXES_DIGIT ∧ env.face = ikFaceOf df then
    (r + 5) % 6
  else if env.leadingDigit = IK_AXES_DIGIT ∧ env.face = jkFaceOf df then
    (r + 1) % 6
  else r

/-- Embedding of vertexRotations: number of CCW rotations of the cell
vertex numbers compared to the directional layout of its neighbors. -/
def vertexRotations (env : CellEnv) : Nat :=
  if env.isBaseCellPentagon = true then
    let df := (findPentDirFaces env.baseCell).getD uninitDirFaces
    subseqCorrection env df (polarIKCorrection env df env.ccwRot60)
  else env.ccwRot60

/-- Hexagon direction to vertex number relationships (same face),
transcribed from directionToVertexNumHex; slot 0 holds INVALID_DIGIT. -/
def directionToVertexNumHex : List Nat :=
  [INVALID_DIGIT, 3, 1, 2, 5, 4, 0]

/-- Pentagon direction to vertex number relationships (same face),
transcribed from directionToVertexNumPent; slots 0 and 1 hold
INVALID_DIGIT. -/
def directionToVertexNumPent : List Nat :=
  [INVALID_DIGIT, INVALID_DIGIT, 1, 2, 4, 3, 0]

/-- Embedding of vertexNumForDirection: the first vertex number for a given
direction, or INVALID_VERTEX_NUM if the direction is not valid for the
cell.  The arithmetic is on Int with C truncated remainder (Int.tmod) to
mirror the int arithmetic of the source. -/
def vertexNumForDirection (env : CellEnv) (direction : Nat) : Int :=
  if direction = CENTER_DIGIT ∨ direction ≥ INVALID_DIGIT ∨
      (env.isPentagon = true ∧ direction = K_AXES_DIGIT) then
    INVALID_VERTEX_NUM
  else if env.isPentagon = true then
    Int.tmod ((directionToVertexNumPent.getD direction 0 : Int) +
      NUM_PENT_VERTS - vertexRotations env) NUM_PENT_VERTS
  else
    Int.tmod ((directionToVertexNumHex.getD direction 0 : Int) +
      NUM_HEX_VERTS - vertexRotations env) NUM_HEX_VERTS

/-- Modelled from the spec: the canonical cyclic neighbor-direction order of
a hexagonal cell (the upstream traversal order, external to the source file):
J, JK, K, IK, I, IJ. -/
def hexDirectionOrder : List Nat :=
  [J_AXES_DIGIT, JK_AXES_DIGIT, K_AXES_DIGIT, IK_AXES_DIGIT, I_AXES_DIGIT,
   IJ_AXES_DIGIT]

/-- Modelled from the spec: the canonical cyclic neighbor-direction order of
a pentagon cell, the hexagonal order with the deleted K axis removed:
J, JK, IK, I, IJ. -/
def pentDirectionOrder : List Nat :=
  [J_AXES_DIGIT, JK_AXES_DIGIT, IK_AXES_DIGIT, I_AXES_DIGIT, IJ_AXES_DIGIT]

/-- Vertex numbers of a cell over a list of directions, in order. -/
def vertexSeq (env : CellEnv) (order : List Nat) : List Int :=
  order.map (vertexNumForDirection env)

/-- Cyclic adjacency of a list of vertex numbers modulo n: each element is
followed (cyclically) by its successor modulo n, so the sequence has no gaps
or repeats in cyclic order. -/
def CyclicAdjacent (L : List Int) (n : Int) : Prop :=
  ∀ i, i < L.length → L.getD ((i + 1) % L.length) 0 = (L.getD i 0 + 1) % n

instance (L : List Int) (n : Int) : Decidable (CyclicAdjacent L n) := by
  unfold CyclicAdjacent; infer_instance

/-- Modelled from the spec: the face order the spec asserts for a
PentagonDirectionFaces entry, directions J, IJ, I, IK, JK in that listed
order. -/
def specClaimedDirectionOrder : List Nat :=
  [J_AXES_DIGIT, IJ_AXES_DIGIT, I_AXES_DIGIT, IK_AXES_DIGIT, JK_AXES_DIGIT]

/-- Directional order of the stored faces per the source comment on the
table: faces are in directional order, starting at J_AXES_DIGIT, so slot i
holds the face for direction digit i + DIRECTION_INDEX_OFFSET, giving
J, JK, I, IK, IJ. -/
def storedDirectionOrder : List Nat :=
  [J_AXES_DIGIT, JK_AXES_DIGIT, I_AXES_DIGIT, IK_AXES_DIGIT, IJ_AXES_DIGIT]

/-- Face of an entry for a direction under a given direction-to-slot
ordering of the face list. -/
def faceForDirection (order : List Nat) (df : PentagonDirectionFaces)
    (d : Nat) : Nat :=
  df.faces.getD (order.indexOf d) 0

/-- Sample collaborator outputs for a hexagonal cell on a hexagonal base
cell, used to instantiate universally quantified theorems. -/
def hexEnvA : CellEnv :=
  ⟨2, 16, 3, 2, 1, false, false, false⟩

/-- Sample collaborator outputs for a pentagon cell on pentagon base cell 4
sitting on its home face. -/
def pentEnvA : CellEnv :=
  ⟨0, 4, 0, 0, 0, true, true, true⟩

/-- Sample collaborator outputs for a hexagonal child of pentagon base cell
14, on a face differing from the home face. -/
def pentEnvB : CellEnv :=
  ⟨7, 14, 3, 2, 1, true, false, false⟩

section Helpers

/-- The polar or IK correction keeps the rotation in 0..5. -/
theorem polarIKCorrection_le_five (env : CellEnv)
    (df : PentagonDirectionFaces) (r : Nat) (h : r ≤ 5) :
    polarIKCorrection env df r ≤ 5 := by
  unfold polarIKCorrection
  split
  · omega
  · exact h

/-- The subsequence-crossing correction keeps the rotation in 0..5. -/
theorem subseqCorrection_le_five (env : CellEnv)
    (df : PentagonDirectionFaces) (r : Nat) (h : r ≤ 5) :
    subseqCorrection env df r ≤ 5 := by
  unfold subseqCorrection
  split
  · omega
  · split
    · omega
    · exact h

/-- Bound on the rotation count for any collaborator rotation in 0..5. -/
theorem vertexRotations_le_five (env : CellEnv) (h : env.ccwRot60 ≤ 5) :
    vertexRotations env ≤ 5 := by
  unfold vertexRotations
  split
  · exact subseqCorrection_le_five _ _ _ (polarIKCorrection_le_five _ _ _ h)
  · exact h

/-- Evaluation of the C remainder on the vertex formula: with the rotation
bounded by the vertex count, the int operand is non-negative and the C
truncated remainder agrees with the natural-number remainder. -/
theorem tmod_shift_eval (t k r : Nat) (hr : r ≤ k) :
    Int.tmod ((t : Int) + k - r) k = ((t + (k - r)) % k : Nat) := by
  have h1 : ((t : Int) + k - r) = ((t + (k - r) : Nat) : Int) := by
    push_cast; omega
  rw [h1, ← Int.ofNat_tmod]

/-- Evaluation of vertexNumForDirection on a hexagonal cell at a recognized
non-Center direction: the guard does not fire and the hexagon table is
used. -/
theorem vertexNum_eval_hex (env : CellEnv) (d : Nat)
    (hp : env.isPentagon = false) (h1 : 1 ≤ d) (h2 : d ≤ 6) :
    vertexNumForDirection env d =
      Int.tmod ((directionToVertexNumHex.getD d 0 : Int) +
        NUM_HEX_VERTS - vertexRotations env) NUM_HEX_VERTS := by
  have hrej : ¬(d = CENTER_DIGIT ∨ d ≥ INVALID_DIGIT ∨
      (env.isPentagon = true ∧ d = K_AXES_DIGIT)) := by
    rintro (h | h | ⟨hb, hk⟩)
    · unfold CENTER_DIGIT at h; omega
    · unfold INVALID_DIGIT at h; omega
    · rw [hp] at hb; exact Bool.noConfusion hb
  unfold vertexNumForDirection
  rw [if_neg hrej, if_neg (by simp [hp])]

/-- Evaluation of vertexNumForDirection on a pentagon cell at a recognized
direction other than Center and K: the guard does not fire and the pentagon
table is used. -/
theorem vertexNum_eval_pent (env : CellEnv) (d : Nat)
    (hp : env.isPentagon = true) (h1 : 2 ≤ d) (h2 : d ≤ 6) :
    vertexNumForDirection env d =
      Int.tmod ((directionToVertexNumPent.getD d 0 : Int) +
        NUM_PENT_VERTS - vertexRotations env) NUM_PENT_VERTS := by
  have hrej : ¬(d = CENTER_DIGIT ∨ d ≥ INVALID_DIGIT ∨
      (env.isPentagon = true ∧ d = K_AXES_DIGIT)) := by
    rintro (h | h | ⟨hb, hk⟩)
    · unfold CENTER_DIGIT at h; omega
    · unfold INVALID_DIGIT at h; omega
    · unfold K_AXES_DIGIT at hk; omega
  unfold vertexNumForDirection
  rw [if_neg hrej, if_pos hp]

end Helpers

/-- C1: for every valid cell whose base cell is not a pentagon,
vertexRotations returns exactly the face-to-face rotation supplied by the
base-cell/face collaborator (_baseCellToCCWrot60), with no pentagon
correction applied. -/
theorem vertexRotations_non_pentagon (env : CellEnv) (hv : env.Valid)
    (h : env.isBaseCellPentagon = false) :
    vertexRotations env = env.ccwRot60 := by
  unfold vertexRotations
  simp [h]

/-- Witness for C1 at a concrete hexagonal-base-cell environment. -/
theorem vertexRotations_non_pentagon_witness :
    vertexRotations hexEnvA = hexEnvA.ccwRot60 :=
  vertexRotations_non_pentagon hexEnvA (by decide) (by decide)

/-- C2: for every valid cell, hexagon or pentagon, vertexRotations returns
a value in 0..5. -/
theorem vertexRotations_in_range (env : CellEnv) (hv : env.Valid) :
    vertexRotations env ≤ 5 :=
  vertexRotations_le_five env hv.1

/-- Witness for C2 at a concrete pentagon environment. -/
theorem vertexRotations_in_range_witness :
    vertexRotations pentEnvB ≤ 5 :=
  vertexRotations_in_range pentEnvB (by decide)

/-- C10: for every valid cell whose base cell is classified as a pentagon,
the linear scan over the 12-entry pentagonDirectionFaces table finds a
matching entry (the base cell id is one of 4, 14, 24, 38, 49, 58, 63, 72,
83, 97, 107, 117), so the branch reading the uninitialized dirFaces is
unreachable. -/
theorem pentagon_scan_finds_entry (env : CellEnv) (hv : env.Valid)
    (hp : env.isBaseCellPentagon = true) :
    env.baseCell ∈ pentagonBaseCellIds ∧
      (findPentDirFaces env.baseCell).isSome = true := by
  have hb : env.baseCell ∈ pentagonBaseCellIds := hv.2.2.1 hp
  refine ⟨hb, ?_⟩
  revert hb
  generalize env.baseCell = b
  intro hb
  fin_cases hb <;> decide

/-- Witness for C10 at a concrete pentagon-base-cell environment. -/
theorem pentagon_scan_finds_entry_witness :
    pentEnvB.baseCell ∈ pentagonBaseCellIds ∧
      (findPentDirFaces pentEnvB.baseCell).isSome = true :=
  pentagon_scan_finds_entry pentEnvB (by decide) (by decide)

/-- C3: vertexNumForDirection returns the invalid-vertex sentinel if and
only if the direction is Center, or not a recognized direction value, or K
on a pentagon cell; every other pair on a valid cell gets a well-defined
vertex number (in particular K on a hexagonal cell is valid). -/
theorem vertexNum_invalid_iff (env : CellEnv) (d : Nat) (hv : env.Valid) :
    vertexNumForDirection env d = INVALID_VERTEX_NUM ↔
      (d = CENTER_DIGIT ∨ d ≥ INVALID_DIGIT ∨
        (env.isPentagon = true ∧ d = K_AXES_DIGIT)) := by
  constructor
  · intro h
    by_contra hc
    have hr : vertexRotations env ≤ 5 := vertexRotations_le_five env hv.1
    unfold vertexNumForDirection at h
    rw [if_neg hc] at h
    unfold INVALID_VERTEX_NUM at h
    split at h
    · unfold NUM_PENT_VERTS at h
      rw [tmod_shift_eval _ _ _ hr] at h
      omega
    · unfold NUM_HEX_VERTS at h
      rw [tmod_shift_eval _ _ _ (show vertexRotations env ≤ 6 by omega)] at h
      omega
  · intro h
    unfold vertexNumForDirection
    rw [if_pos h]

/-- Witness for C3: direction K on the pentagon cell pentEnvA maps to the
invalid sentinel. -/
theorem vertexNum_invalid_iff_witness :
    vertexNumForDirection pentEnvA K_AXES_DIGIT = INVALID_VERTEX_NUM :=
  (vertexNum_invalid_iff pentEnvA K_AXES_DIGIT (by decide)).mpr (by decide)

/-- C4: for valid cells and valid non-Center directions, the vertex number
is (table value + cellVertexCount - rotations) mod cellVertexCount with the
hexagon table and count 6 for hexagonal cells over directions K..IJ, and the
pentagon table and count 5 for pentagon cells over directions J..IJ; the
result lies in 0..5 resp. 0..4. -/
theorem vertexNum_formula_and_range (env : CellEnv) (hv : env.Valid) :
    (env.isPentagon = false → ∀ d, K_AXES_DIGIT ≤ d → d ≤ IJ_AXES_DIGIT →
      vertexNumForDirection env d =
        Int.tmod ((directionToVertexNumHex.getD d 0 : Int) +
          NUM_HEX_VERTS - vertexRotations env) NUM_HEX_VERTS ∧
      0 ≤ vertexNumForDirection env d ∧ vertexNumForDirection env d ≤ 5) ∧
    (env.isPentagon = true → ∀ d, J_AXES_DIGIT ≤ d → d ≤ IJ_AXES_DIGIT →
      vertexNumForDirection env d =
        Int.tmod ((directionToVertexNumPent.getD d 0 : Int) +
          NUM_PENT_VERTS - vertexRotations env) NUM_PENT_VERTS ∧
      0 ≤ vertexNumForDirection env d ∧ vertexNumForDirection env d ≤ 4) := by
  have hr : vertexRotations env ≤ 5 := vertexRotations_le_five env hv.1
  constructor
  · intro hp d h1 h2
    unfold K_AXES_DIGIT at h1
    unfold IJ_AXES_DIGIT at h2
    refine ⟨vertexNum_eval_hex env d hp h1 h2, ?_, ?_⟩ <;>
      rw [vertexNum_eval_hex env d hp h1 h2] <;>
      unfold NUM_HEX_VERTS <;>
      rw [tmod_shift_eval _ _ _ (show vertexRotations env ≤ 6 by omega)] <;>
      omega
  · intro hp d h1 h2
    unfold J_AXES_DIGIT at h1
    unfold IJ_AXES_DIGIT at h2
    refine ⟨vertexNum_eval_pent env d hp h1 h2, ?_, ?_⟩ <;>
      rw [vertexNum_eval_pent env d hp h1 h2] <;>
      unfold NUM_PENT_VERTS <;>
      rw [tmod_shift_eval _ _ _ hr] <;>
      omega

/-- Witness for C4: the hexagonal cell hexEnvA queried at direction K gets a
vertex number in 0..5. -/
theorem vertexNum_formula_and_range_witness :
    0 ≤ vertexNumForDirection hexEnvA K_AXES_DIGIT ∧
      vertexNumForDirection hexEnvA K_AXES_DIGIT ≤ 5 :=
  ⟨((vertexNum_formula_and_range hexEnvA (by decide)).1 (by decide)
      K_AXES_DIGIT (by decide) (by decide)).2.1,
   ((vertexNum_formula_and_range hexEnvA (by decide)).1 (by decide)
      K_AXES_DIGIT (by decide) (by decide)).2.2⟩

/-- C5: for a valid cell on a pentagon base cell, the first pentagon
correction inside vertexRotations increments the rotation by exactly 1 mod 6
precisely when the current face differs from the home face and the base cell
is polar or the current face equals the entry face for the IK direction;
otherwise that step leaves the rotation unchanged. -/
theorem pentagon_polar_ik_correction (env : CellEnv)
    (df : PentagonDirectionFaces) (hv : env.Valid)
    (hp : env.isBaseCellPentagon = true)
    (hdf : findPentDirFaces env.baseCell = some df) :
    vertexRotations env =
      subseqCorrection env df (polarIKCorrection env df env.ccwRot60) ∧
    ((env.face ≠ env.baseFace ∧
        (env.isBaseCellPolarPentagon = true ∨ env.face = ikFaceOf df)) →
      polarIKCorrection env df env.ccwRot60 = (env.ccwRot60 + 1) % 6) ∧
    (¬(env.face ≠ env.baseFace ∧
        (env.isBaseCellPolarPentagon = true ∨ env.face = ikFaceOf df)) →
      polarIKCorrection env df env.ccwRot60 = env.ccwRot60) := by
  refine ⟨?_, ?_, ?_⟩
  · unfold vertexRotations
    rw [if_pos hp, hdf]
    simp only [Option.getD_some]
  · intro h
    unfold polarIKCorrection
    rw [if_pos h]
  · intro h
    unfold polarIKCorrection
    rw [if_neg h]

/-- Witness for C5 at pentagon base cell 14, applying the composition
conjunct at its table entry. -/
theorem pentagon_polar_ik_correction_witness :
    vertexRotations pentEnvB =
      subseqCorrection pentEnvB ⟨14, [6, 11, 2, 7, 1]⟩
        (polarIKCorrection pentEnvB ⟨14, [6, 11, 2, 7, 1]⟩
          pentEnvB.ccwRot60) :=
  (pentagon_polar_ik_correction pentEnvB ⟨14, [6, 11, 2, 7, 1]⟩
    (by decide) (by decide) (by decide)).1

/-- C6: for a valid pentagon cell, the deleted-subsequence correction adds 5
mod 6 when the leading non-zero digit is JK and the face is the IK entry
face, adds 1 mod 6 when the leading digit is IK and the face is the JK entry
face, and these two conditions can never hold together. -/
theorem pentagon_subseq_correction (env : CellEnv)
    (df : PentagonDirectionFaces) (r : Nat) (hv : env.Valid)
    (hp : env.isPentagon = true)
    (hdf : findPentDirFaces env.baseCell = some df) :
    vertexRotations env =
      subseqCorrection env df (polarIKCorrection env df env.ccwRot60) ∧
    (env.leadingDigit = JK_AXES_DIGIT ∧ env.face = ikFaceOf df →
      subseqCorrection env df r = (r + 5) % 6) ∧
    (env.leadingDigit = IK_AXES_DIGIT ∧ env.face = jkFaceOf df →
      subseqCorrection env df r = (r + 1) % 6) ∧
    ¬((env.leadingDigit = JK_AXES_DIGIT ∧ env.face = ikFaceOf df) ∧
      (env.leadingDigit = IK_AXES_DIGIT ∧ env.face = jkFaceOf df)) := by
  have hbp : env.isBaseCellPentagon = true := hv.2.2.2 hp
  refine ⟨?_, ?_, ?_, ?_⟩
  · unfold vertexRotations
    rw [if_pos hbp, hdf]
    simp only [Option.getD_some]
  · intro h
    unfold subseqCorrection
    rw [if_pos h]
  · intro h
    have h1 : ¬(env.leadingDigit = JK_AXES_DIGIT ∧
        env.face = ikFaceOf df) := by
      rintro ⟨hjk, _⟩
      rw [h.1] at hjk
      unfold IK_AXES_DIGIT JK_AXES_DIGIT at hjk
      omega
    unfold subseqCorrection
    rw [if_neg h1, if_pos h]
  · rintro ⟨⟨h1, _⟩, ⟨h2, _⟩⟩
    rw [h1] at h2
    unfold JK_AXES_DIGIT IK_AXES_DIGIT at h2
    omega

/-- Witness for C6 at the pentagon cell of base cell 4, applying the
composition conjunct at its table entry. -/
theorem pentagon_subseq_correction_witness :
    vertexRotations pentEnvA =
      subseqCorrection pentEnvA ⟨4, [4, 0, 2, 1, 3]⟩
        (polarIKCorrection pentEnvA ⟨4, [4, 0, 2, 1, 3]⟩
          pentEnvA.ccwRot60) :=
  (pentagon_subseq_correction pentEnvA ⟨4, [4, 0, 2, 1, 3]⟩ 2
    (by decide) (by decide) (by decide)).1

/-- C7 counterexample: for the first table entry (base cell 4), the face the
code reads as jkFace (slot JK_AXES_DIGIT - DIRECTION_INDEX_OFFSET = 1, value
0) is not the face the spec ordering J, IJ, I, IK, JK assigns to the JK
direction (slot 4, value 3); moreover the stored order J, JK, I, IK, IJ is
not any cyclic shift of the claimed order J, IJ, I, IK, JK. -/
theorem spec_claimed_order_counterexample :
    jkFaceOf (pentagonDirectionFaces.getD 0 uninitDirFaces) ≠
      faceForDirection specClaimedDirectionOrder
        (pentagonDirectionFaces.getD 0 uninitDirFaces) JK_AXES_DIGIT ∧
    (∀ s, s < 5 → ¬(∀ i, i < 5 →
      storedDirectionOrder.getD i 0 =
        specClaimedDirectionOrder.getD ((i + s) % 5) 0)) := by
  decide

/-- C7 amended: the table has exactly 12 entries of 5 faces each; the faces
are stored in direction-digit order starting at J (J, JK, I, IK, IJ; slot =
digit - DIRECTION_INDEX_OFFSET), and under that ordering the face read as
ikFace is the entry face for the IK direction and the face read as jkFace is
the entry face for the JK direction. -/
theorem pentagon_table_order (df : PentagonDirectionFaces) :
    pentagonDirectionFaces.length = NUM_PENTAGONS ∧
    (∀ e, e ∈ pentagonDirectionFaces → e.faces.length = NUM_PENT_VERTS) ∧
    (∀ i, i < 5 →
      storedDirectionOrder.getD i 0 = i + DIRECTION_INDEX_OFFSET) ∧
    ikFaceOf df = faceForDirection storedDirectionOrder df IK_AXES_DIGIT ∧
    jkFaceOf df = faceForDirection storedDirectionOrder df JK_AXES_DIGIT := by
  refine ⟨by decide, by decide, by decide, ?_, ?_⟩ <;> rfl

/-- Witness for C7 as amended: the entry of base cell 14 is in the table and
has five faces. -/
theorem pentagon_table_order_witness :
    (⟨14, [6, 11, 2, 7, 1]⟩ : PentagonDirectionFaces).faces.length =
      NUM_PENT_VERTS :=
  (pentagon_table_order uninitDirFaces).2.1 ⟨14, [6, 11, 2, 7, 1]⟩ (by decide)

/-- C8: a pentagon cell of base cell 4 queried on the home face (so the
collaborator rotation is 0 and, the cell being a pentagon, the leading
non-zero digit is Center) returns for direction J the unrotated pentagon
table value. -/
theorem base_cell4_home_face_direction_j (env : CellEnv) (hv : env.Valid)
    (hb : env.baseCell = 4) (hp : env.isPentagon = true)
    (hld : env.leadingDigit = CENTER_DIGIT)
    (hf : env.face = env.baseFace) (hr0 : env.ccwRot60 = 0) :
    vertexNumForDirection env J_AXES_DIGIT =
      (directionToVertexNumPent.getD J_AXES_DIGIT 0 : Int) := by
  have hbp : env.isBaseCellPentagon = true := hv.2.2.2 hp
  have hrot : vertexRotations env = 0 := by
    unfold vertexRotations
    rw [if_pos hbp, hb]
    rw [show findPentDirFaces 4 = some ⟨4, [4, 0, 2, 1, 3]⟩ from by decide]
    simp only [Option.getD_some]
    unfold polarIKCorrection
    rw [if_neg (by rintro ⟨hne, _⟩; exact hne hf)]
    unfold subseqCorrection
    rw [if_neg (by
      rintro ⟨h3, _⟩
      rw [hld] at h3
      unfold CENTER_DIGIT JK_AXES_DIGIT at h3
      omega)]
    rw [if_neg (by
      rintro ⟨h5, _⟩
      rw [hld] at h5
      unfold CENTER_DIGIT IK_AXES_DIGIT at h5
      omega)]
    exact hr0
  rw [vertexNum_eval_pent env J_AXES_DIGIT hp (by decide) (by decide), hrot]
  decide

/-- Witness for C8 at the concrete environment pentEnvA. -/
theorem base_cell4_home_face_direction_j_witness :
    vertexNumForDirection pentEnvA J_AXES_DIGIT =
      (directionToVertexNumPent.getD J_AXES_DIGIT 0 : Int) :=
  base_cell4_home_face_direction_j pentEnvA (by decide) (by decide)
    (by decide) (by decide) (by decide) (by decide)

/-- C9: for a valid cell the vertex numbers over the canonical cyclic
direction order form a permutation of 0..5 (hexagon) or 0..4 (pentagon) and
successive directions get cyclically successive vertex numbers, whatever the
rotation count. -/
theorem vertexSeq_cyclic (env : CellEnv) (hv : env.Valid) :
    (env.isPentagon = false →
      (vertexSeq env hexDirectionOrder).Perm [0, 1, 2, 3, 4, 5] ∧
      CyclicAdjacent (vertexSeq env hexDirectionOrder) 6) ∧
    (env.isPentagon = true →
      (vertexSeq env pentDirectionOrder).Perm [0, 1, 2, 3, 4] ∧
      CyclicAdjacent (vertexSeq env pentDirectionOrder) 5) := by
  have hr : vertexRotations env ≤ 5 := vertexRotations_le_five env hv.1
  constructor
  · intro hp
    unfold vertexSeq hexDirectionOrder
    simp only [List.map_cons, List.map_nil]
    rw [vertexNum_eval_hex env J_AXES_DIGIT hp (by decide) (by decide),
      vertexNum_eval_hex env JK_AXES_DIGIT hp (by decide) (by decide),
      vertexNum_eval_hex env K_AXES_DIGIT hp (by decide) (by decide),
      vertexNum_eval_hex env IK_AXES_DIGIT hp (by decide) (by decide),
      vertexNum_eval_hex env I_AXES_DIGIT hp (by decide) (by decide),
      vertexNum_eval_hex env IJ_AXES_DIGIT hp (by decide) (by decide)]
    obtain ⟨r, hrEq⟩ : ∃ r, vertexRotations env = r := ⟨_, rfl⟩
    rw [hrEq] at hr ⊢
    interval_cases r <;> exact ⟨by decide, by decide⟩
  · intro hp
    unfold vertexSeq pentDirectionOrder
    simp only [List.map_cons, List.map_nil]
    rw [vertexNum_eval_pent env J_AXES_DIGIT hp (by decide) (by decide),
      vertexNum_eval_pent env JK_AXES_DIGIT hp (by decide) (by decide),
      vertexNum_eval_pent env IK_AXES_DIGIT hp (by decide) (by decide),
      vertexNum_eval_pent env I_AXES_DIGIT hp (by decide) (by decide),
      vertexNum_eval_pent env IJ_AXES_DIGIT hp (by decide) (by decide)]
    obtain ⟨r, hrEq⟩ : ∃ r, vertexRotations env = r := ⟨_, rfl⟩
    rw [hrEq] at hr ⊢
    interval_cases r <;> exact ⟨by decide, by decide⟩

/-- Witness for C9: the pentagon cell pentEnvA yields a permutation of 0..4
over the canonical pentagon direction order. -/
theorem vertexSeq_cyclic_witness :
    (vertexSeq pentEnvA pentDirectionOrder).Perm [0, 1, 2, 3, 4] :=
  ((vertexSeq_cyclic pentEnvA (by decide)).2 (by decide)).1

end H3Vertex
